import Mathlib

/-!
Shallow embedding of the udemy-chatbot React client core, verified against
its natural-language specification.

Embedded source files:
- react-ai-chatbot/src/stores/settingsStore.js (settings store, key
  validation, the persist middleware snapshot under "chatbot-settings",
  and the useTheme / useWebSearchTool hooks); a historical variant of the
  same store (theme coercion in useTheme, clearStorage in resetSettings)
  is embedded separately with a Variant suffix;
- react-ai-chatbot/src/App.jsx (conversation controller: addMessage,
  handleContentSend);
- react-ai-chatbot/src/components/Controls/Controls.jsx (submission gate:
  the disabled prop and the content.length check);
- react-ai-chatbot/src/assistants/messages.js (Message factory);
- react-ai-chatbot/src/assistants/openAI.js (Assistant.sendMessage request
  body construction, web-search directive handling).
-/

namespace Chatbot

/-- Role of a chat message; JS uses the strings "user", "assistant",
"system" (messages.js). -/
inductive Role where
  | user
  | assistant
  | system
  deriving DecidableEq, Repr

/-- A chat message as built by the Message class in messages.js. -/
structure Message where
  content : String
  role : Role
  deriving DecidableEq, Repr

/-- Message.user from messages.js. -/
def Message.user (content : String) : Message :=
  { content := content, role := Role.user }

/-- Message.assistant from messages.js. -/
def Message.assistant (content : String) : Message :=
  { content := content, role := Role.assistant }

/-- Message.system from messages.js. -/
def Message.system (content : String) : Message :=
  { content := content, role := Role.system }

/-- A JavaScript value stored in a setting slot: the store holds a boolean
for useWebSearch and a string for theme, but updateSetting itself accepts
any value. -/
inductive JsValue where
  | bool (b : Bool)
  | str (s : String)
  deriving DecidableEq, Repr

/-- Object.values(SETTING_KEYS) from settingsStore.js. -/
def SETTING_KEYS : List String := ["useWebSearch", "theme"]

/-- THEMES.AUTO from settingsStore.js (the literal string "light dark"). -/
def THEMES_AUTO : String := "light dark"

/-- THEMES.LIGHT from settingsStore.js. -/
def THEMES_LIGHT : String := "light"

/-- THEMES.DARK from settingsStore.js. -/
def THEMES_DARK : String := "dark"

/-- Object.values(THEMES) from settingsStore.js. -/
def THEMES : List String := [THEMES_AUTO, THEMES_LIGHT, THEMES_DARK]

/-- The settings slice of the zustand store state: one slot per key in
SETTING_KEYS. -/
structure Settings where
  useWebSearch : JsValue
  theme : JsValue
  deriving DecidableEq, Repr

/-- getDefaultSettings from settingsStore.js. -/
def getDefaultSettings : Settings :=
  { useWebSearch := JsValue.bool false, theme := JsValue.str THEMES_AUTO }

/-- Dynamic property read currentState[key], restricted to the keys that
pass ensureKeyExists (the only call sites read validated keys): any key
other than "useWebSearch" that reaches this function is "theme". -/
def Settings.getKey (s : Settings) (key : String) : JsValue :=
  if key = "useWebSearch" then s.useWebSearch else s.theme

/-- Dynamic property write set({[key]: value}) on the settings slice,
restricted like Settings.getKey to validated keys. -/
def Settings.setKey (s : Settings) (key : String) (v : JsValue) : Settings :=
  if key = "useWebSearch" then { s with useWebSearch := v } else { s with theme := v }

/-- The zustand store together with the durable snapshot the persist
middleware keeps in localStorage under the name "chatbot-settings"
(none when no snapshot has been written). -/
structure SettingsStore where
  settings : Settings
  storage : Option Settings
  deriving DecidableEq, Repr

/-- Store state on first load with no persisted snapshot: the spread of
getDefaultSettings() in the store initializer. -/
def initialStore : SettingsStore :=
  { settings := getDefaultSettings, storage := none }

/-- The error message string built by ensureKeyExists in settingsStore.js. -/
def invalidKeyMsg (key : String) : String := key ++ " is not a valid setting."

/-- ensureKeyExists from settingsStore.js: throws (modelled as
Except.error) when the key is not in Object.values(SETTING_KEYS). -/
def ensureKeyExists (key : String) : Except String Unit :=
  if SETTING_KEYS.contains key then Except.ok () else Except.error (invalidKeyMsg key)

/-- A zustand set(...) call under the persist middleware: the new settings
become current state and the full settings object is serialized to the
durable snapshot. -/
def persistSet (s : Settings) : SettingsStore :=
  { settings := s, storage := some s }

/-- updateSetting from settingsStore.js. The returned Bool records whether
the zustand set(...) call fired, i.e. whether subscribers were notified:
when currentState[key] === value the function returns early and no
notification fires. An Except.error models the thrown invalid-key error,
raised before any state change. -/
def updateSetting (store : SettingsStore) (key : String) (value : JsValue) :
    Except String (SettingsStore × Bool) :=
  match ensureKeyExists key with
  | Except.error e => Except.error e
  | Except.ok _ =>
    if store.settings.getKey key = value then
      Except.ok (store, false)
    else
      Except.ok (persistSet (store.settings.setKey key value), true)

/-- getSetting from settingsStore.js. -/
def getSetting (store : SettingsStore) (key : String) : Except String JsValue :=
  match ensureKeyExists key with
  | Except.error e => Except.error e
  | Except.ok _ => Except.ok (store.settings.getKey key)

/-- Caller-side exception semantics of updateSetting: a thrown error
propagates and the store state is left untouched. -/
def tryUpdateSetting (store : SettingsStore) (key : String) (value : JsValue) :
    SettingsStore × Option String :=
  match updateSetting store key value with
  | Except.ok (s, _) => (s, none)
  | Except.error e => (store, some e)

/-- resetSettings from settingsStore.js: set(getDefaultSettings()); under
the persist middleware this also writes the defaults to the durable
snapshot (it does not remove the snapshot). -/
def resetSettings (_store : SettingsStore) : SettingsStore :=
  persistSet getDefaultSettings

/-- resetSettings from the historical store variant: set(getDefaultSettings())
followed by useSettingsStore.persist.clearStorage(), which removes the
durable snapshot. -/
def resetSettingsVariant (_store : SettingsStore) : SettingsStore :=
  { settings := getDefaultSettings, storage := none }

/-- The setter returned by the useTheme hook in settingsStore.js: it
passes newValue through to updateSetting unchanged. -/
def useThemeSetter (store : SettingsStore) (newValue : String) :
    Except String (SettingsStore × Bool) :=
  updateSetting store "theme" (JsValue.str newValue)

/-- The setter returned by the useTheme hook in the historical store
variant: an out-of-enum value is replaced by THEMES.AUTO before the
updateSetting call. -/
def useThemeSetterVariant (store : SettingsStore) (newValue : String) :
    Except String (SettingsStore × Bool) :=
  updateSetting store "theme"
    (JsValue.str (if THEMES.contains newValue then newValue else THEMES_AUTO))

/-- Store restart: the persist middleware rehydrates from the durable
snapshot when one exists, otherwise the compiled-in defaults apply; the
snapshot itself survives the restart. -/
def restart (storage : Option Settings) : SettingsStore :=
  { settings := storage.getD getDefaultSettings, storage := storage }

/-- Whether the store state and the durable snapshot agree: this holds on
first load and is preserved by every store action, since the persist
middleware rewrites the snapshot on every set(...). -/
def Consistent (store : SettingsStore) : Prop :=
  (store.storage = none ∧ store.settings = getDefaultSettings) ∨
  store.storage = some store.settings

/-- Value validity per the spec data model: useWebSearch holds a boolean,
theme holds a member of the THEMES enum. -/
def validValue (key : String) (value : JsValue) : Bool :=
  match key, value with
  | "useWebSearch", JsValue.bool _ => true
  | "theme", JsValue.str s => THEMES.contains s
  | _, _ => false

/-- Outcome of the awaited assistant.sendMessage(...) call in App.jsx:
either the reply text or a thrown error. -/
inductive ProviderResult where
  | ok (reply : String)
  | error (err : String)
  deriving DecidableEq, Repr

/-- addMessage from App.jsx: setMessages(previous => [...previous, message]). -/
def addMessage (messages : List Message) (message : Message) : List Message :=
  messages ++ [message]

/-- handleContentSend from App.jsx, applied to one resolved send: append
the user message, then on success append an assistant message with the
reply, on failure append a system message carrying the original content
and log the error (the second component collects console.error output). -/
def handleContentSend (messages : List Message) (content : String)
    (result : ProviderResult) : List Message × List String :=
  let afterUser := addMessage messages (Message.user content)
  match result with
  | ProviderResult.ok reply => (addMessage afterUser (Message.assistant reply), [])
  | ProviderResult.error err => (addMessage afterUser (Message.system content), [err])

/-- A sequence of resolved sends processed by handleContentSend in order. -/
def processSends (messages : List Message) (sends : List (String × ProviderResult)) :
    List Message :=
  sends.foldl (fun acc s => (handleContentSend acc s.1 s.2).1) messages

/-- The two messages one resolved send contributes after the user message:
an assistant message on success, a system echo of the content on failure. -/
def resolutionMessage (content : String) : ProviderResult → Message
  | ProviderResult.ok reply => Message.assistant reply
  | ProviderResult.error _ => Message.system content

/-- The full block of messages a list of resolved sends appends. -/
def sendsTranscript : List (String × ProviderResult) → List Message
  | [] => []
  | s :: rest => Message.user s.1 :: resolutionMessage s.1 s.2 :: sendsTranscript rest

/-- Interface state: the conversation history plus the number of
assistant.sendMessage calls currently awaited. -/
structure AppState where
  messages : List Message
  inFlight : Nat
  deriving DecidableEq, Repr

/-- The disabled prop App.jsx passes to Controls: App.jsx renders
Controls with no disabled attribute, so the Controls default
(disabled = false) applies at all times. -/
def appControlsDisabled : Bool := false

/-- A submission attempt through Controls.jsx: the textarea and the send
button are inert while the disabled prop is true; otherwise
handleContentSend in Controls returns early when content.length < 1 and
else calls onSend, which in App.jsx appends the user message and starts
the awaited provider call. -/
def controlsSubmit (disabled : Bool) (content : String) (s : AppState) : AppState :=
  if disabled then s
  else if content.length < 1 then s
  else { messages := s.messages ++ [Message.user content], inFlight := s.inFlight + 1 }

/-- A submission attempt in the application as wired: Controls receives
the disabled prop App.jsx supplies. -/
def submit (s : AppState) (content : String) : AppState :=
  controlsSubmit appControlsDisabled content s

/-- USE_WEB_SEARCH_TOOL_DIRECTIVE from openAI.js. -/
def USE_WEB_SEARCH_TOOL_DIRECTIVE : String := "[use-tool-web-search]"

/-- JavaScript String.prototype.toLowerCase restricted to per-character
lowering, as used on the message content in openAI.js. -/
def jsToLowerCase (s : String) : String := String.mk (s.data.map Char.toLower)

/-- JavaScript String.prototype.endsWith. -/
def jsEndsWith (s pattern : String) : Bool := List.isSuffixOf pattern.data s.data

/-- The request body Assistant.sendMessage in openAI.js hands to
openAI.responses.create: model, the single input entry, and the tools
list. -/
structure ResponsesRequest where
  model : String
  inputRole : Role
  inputContent : String
  tools : List String
  deriving DecidableEq, Repr

/-- Assistant.sendMessage from openAI.js up to the network call: when the
lowercased content ends with the directive, tools gains the web_search
entry; the source then evaluates content.replace(directive, "") but
discards the result (strings are immutable), so input content is the
original content in both branches. -/
def sendMessageRequest (model : String) (msg : Message) : ResponsesRequest :=
  if jsEndsWith (jsToLowerCase msg.content) USE_WEB_SEARCH_TOOL_DIRECTIVE then
    { model := model, inputRole := msg.role, inputContent := msg.content,
      tools := ["web_search"] }
  else
    { model := model, inputRole := msg.role, inputContent := msg.content, tools := [] }

/-! Helper lemmas shared by the claim theorems. -/

/-- The only recognized keys are "useWebSearch" and "theme". -/
theorem key_recognized_cases (key : String) (h : SETTING_KEYS.contains key = true) :
    key = "useWebSearch" ∨ key = "theme" := by
  simp only [SETTING_KEYS, List.contains_cons, List.contains_nil, Bool.or_false,
    Bool.or_eq_true, beq_iff_eq] at h
  tauto

/-- One resolved send appends the user message and its resolution message. -/
theorem handleContentSend_messages (acc : List Message) (c : String) (r : ProviderResult) :
    (handleContentSend acc c r).1 = acc ++ [Message.user c, resolutionMessage c r] := by
  cases r <;> simp [handleContentSend, addMessage, resolutionMessage]

/-- Folding resolved sends appends exactly their transcript. -/
theorem processSends_eq_append (sends : List (String × ProviderResult))
    (messages : List Message) :
    processSends messages sends = messages ++ sendsTranscript sends := by
  induction sends generalizing messages with
  | nil => simp [processSends, sendsTranscript]
  | cons s rest ih =>
    have hstep : processSends messages (s :: rest) =
        processSends ((handleContentSend messages s.1 s.2).1) rest := rfl
    rw [hstep, ih, handleContentSend_messages]
    simp [sendsTranscript]

/-- The transcript of resolved sends has two entries per send. -/
theorem sendsTranscript_length (sends : List (String × ProviderResult)) :
    (sendsTranscript sends).length = 2 * sends.length := by
  induction sends with
  | nil => rfl
  | cons s rest ih =>
    simp [sendsTranscript, ih]
    ring

/-- Reading the theme slot with Settings.getKey. -/
theorem getKey_theme (s : Settings) : s.getKey "theme" = s.theme := by
  simp [Settings.getKey]

/-- Rehydrating from the snapshot of a consistent store reproduces the
store. -/
theorem restart_of_consistent (store : SettingsStore) (h : Consistent store) :
    restart store.storage = store := by
  rcases h with ⟨h1, h2⟩ | h1
  · cases store with
    | mk settings storage =>
      simp only at h1 h2
      subst h1
      subst h2
      rfl
  · cases store with
    | mk settings storage =>
      simp only at h1
      subst h1
      rfl

/-! Claim theorems. -/

/-- Claim C1: for every key outside the recognized set, getSetting and
updateSetting throw the invalid-key error and leave the store unchanged;
for every recognized key neither throws. -/
theorem invalid_key_rejected_valid_key_ok (store : SettingsStore) (key : String)
    (value : JsValue) :
    (SETTING_KEYS.contains key = false →
      getSetting store key = Except.error (invalidKeyMsg key) ∧
      tryUpdateSetting store key value = (store, some (invalidKeyMsg key))) ∧
    (SETTING_KEYS.contains key = true →
      getSetting store key = Except.ok (store.settings.getKey key) ∧
      ∃ s n, updateSetting store key value = Except.ok (s, n)) := by
  constructor
  · intro h
    have hmem : ¬ key ∈ SETTING_KEYS := by simpa using h
    simp [getSetting, tryUpdateSetting, updateSetting, ensureKeyExists, hmem]
  · intro h
    have hmem : key ∈ SETTING_KEYS := by simpa using h
    refine ⟨by simp [getSetting, ensureKeyExists, hmem], ?_⟩
    by_cases hv : store.settings.getKey key = value
    · exact ⟨store, false, by simp [updateSetting, ensureKeyExists, hmem, hv]⟩
    · exact ⟨persistSet (store.settings.setKey key value), true,
        by simp [updateSetting, ensureKeyExists, hmem, hv]⟩

/-- Claim C1 witness: the key "fontSize" is rejected with the invalid-key
error and no state change, while the recognized key "useWebSearch" is
read and written without an error. -/
theorem invalid_key_rejected_valid_key_ok_witness :
    SETTING_KEYS.contains "fontSize" = false ∧
    tryUpdateSetting initialStore "fontSize" (JsValue.bool true) =
      (initialStore, some (invalidKeyMsg "fontSize")) ∧
    SETTING_KEYS.contains "useWebSearch" = true ∧
    (∃ s n, updateSetting initialStore "useWebSearch" (JsValue.bool true) =
      Except.ok (s, n)) :=
  ⟨by decide,
   ((invalid_key_rejected_valid_key_ok initialStore "fontSize" (JsValue.bool true)).1
      (by decide)).2,
   by decide,
   ((invalid_key_rejected_valid_key_ok initialStore "useWebSearch" (JsValue.bool true)).2
      (by decide)).2⟩

/-- Claim C2: a sequence of resolved sends only appends to the history
(the old history stays an unchanged prefix), each send contributes the
user message followed by one assistant-or-system message, the final
length is the old length plus two per resolved send, and a still-pending
send has contributed exactly its user message. -/
theorem history_append_only (messages : List Message)
    (sends : List (String × ProviderResult)) (pending : String) :
    (∃ tail, processSends messages sends = messages ++ tail) ∧
    (processSends messages sends).length = messages.length + 2 * sends.length ∧
    (addMessage (processSends messages sends) (Message.user pending)).length =
      messages.length + (2 * sends.length + 1) ∧
    (∀ acc c r, (handleContentSend acc c r).1 =
        acc ++ [Message.user c, resolutionMessage c r] ∧
      ((resolutionMessage c r).role = Role.assistant ∨
       (resolutionMessage c r).role = Role.system)) := by
  refine ⟨⟨sendsTranscript sends, processSends_eq_append sends messages⟩, ?_, ?_, ?_⟩
  · rw [processSends_eq_append]
    simp [sendsTranscript_length]
  · rw [processSends_eq_append]
    simp [addMessage, sendsTranscript_length]
  · intro acc c r
    refine ⟨handleContentSend_messages acc c r, ?_⟩
    cases r
    · exact Or.inl rfl
    · exact Or.inr rfl

/-- Claim C3: when the provider call fails, the controller appends a
system message whose content is the original user text after the user
message already appended, only the error itself is logged, and the
Controls disabled prop App supplies is false, so the interface is ready. -/
theorem provider_failure_appends_system_echo (messages : List Message)
    (content err : String) :
    handleContentSend messages content (ProviderResult.error err) =
      (messages ++ [Message.user content, Message.system content], [err]) ∧
    appControlsDisabled = false := by
  constructor
  · simp [handleContentSend, addMessage]
  · rfl

/-- Claim C4: on a consistent store, updating a recognized key to a valid
value succeeds, a following getSetting returns that value, and after a
restart that rehydrates from the persisted snapshot getSetting still
returns it. -/
theorem update_get_roundtrip_persists (store : SettingsStore) (key : String)
    (value : JsValue) (hcons : Consistent store)
    (hkey : SETTING_KEYS.contains key = true) (hval : validValue key value = true) :
    ∃ s n, updateSetting store key value = Except.ok (s, n) ∧
      getSetting s key = Except.ok value ∧
      getSetting (restart s.storage) key = Except.ok value := by
  have hmem : key ∈ SETTING_KEYS := by simpa using hkey
  by_cases hv : store.settings.getKey key = value
  · refine ⟨store, false, ?_, ?_, ?_⟩
    · simp [updateSetting, ensureKeyExists, hmem, hv]
    · simp [getSetting, ensureKeyExists, hmem, hv]
    · rw [restart_of_consistent store hcons]
      simp [getSetting, ensureKeyExists, hmem, hv]
  · refine ⟨persistSet (store.settings.setKey key value), true, ?_, ?_, ?_⟩
    · simp [updateSetting, ensureKeyExists, hmem, hv]
    · rcases key_recognized_cases key hkey with hk | hk <;> subst hk <;>
        simp [getSetting, ensureKeyExists, persistSet, Settings.getKey, Settings.setKey, hmem]
    · rw [restart_of_consistent _ (Or.inr rfl)]
      rcases key_recognized_cases key hkey with hk | hk <;> subst hk <;>
        simp [getSetting, ensureKeyExists, persistSet, Settings.getKey, Settings.setKey, hmem]

/-- Claim C4 witness: on the initial store, setting theme to "dark" reads
back as "dark", also after a restart from the snapshot. -/
theorem update_get_roundtrip_persists_witness :
    Consistent initialStore ∧ validValue "theme" (JsValue.str "dark") = true ∧
    (∃ s n, updateSetting initialStore "theme" (JsValue.str "dark") = Except.ok (s, n) ∧
      getSetting s "theme" = Except.ok (JsValue.str "dark") ∧
      getSetting (restart s.storage) "theme" = Except.ok (JsValue.str "dark")) :=
  ⟨Or.inl ⟨rfl, rfl⟩, by decide,
   update_get_roundtrip_persists initialStore "theme" (JsValue.str "dark")
     (Or.inl ⟨rfl, rfl⟩) (by decide) (by decide)⟩

/-- Claim C5 counterexample: App.jsx passes no disabled prop to Controls,
so while the send of "hello" is still in flight a second submission
"world" is dispatched as well, and two provider calls are in flight at
once. -/
theorem single_in_flight_counterexample :
    (submit { messages := [], inFlight := 0 } "hello").inFlight = 1 ∧
    (submit (submit { messages := [], inFlight := 0 } "hello") "world").inFlight = 2 := by
  decide

/-- Claim C5 amended: the disabled prop App supplies to Controls is the
constant false, so the input surface is never disabled during a send and
any non-empty submission is dispatched regardless of how many provider
calls are already in flight. -/
theorem second_submission_dispatched (s : AppState) (c : String) (h : 1 ≤ c.length) :
    appControlsDisabled = false ∧
    submit s c = { messages := s.messages ++ [Message.user c], inFlight := s.inFlight + 1 } := by
  refine ⟨rfl, ?_⟩
  have hlt : ¬ c.length < 1 := by omega
  simp [submit, controlsSubmit, appControlsDisabled, hlt]

/-- Claim C5 amended witness: with one send pending, submitting "world"
is dispatched and a second provider call starts. -/
theorem second_submission_dispatched_witness :
    submit { messages := [Message.user "hello"], inFlight := 1 } "world" =
      { messages := [Message.user "hello", Message.user "world"], inFlight := 2 } := by
  have h := (second_submission_dispatched
    { messages := [Message.user "hello"], inFlight := 1 } "world" (by decide)).2
  rw [h]
  rfl

/-- Claim C6 counterexample: via the useTheme setter of the canonical
store, setting the out-of-enum value "neon" stores "neon" itself, not
the default THEMES.AUTO. -/
theorem theme_out_of_enum_counterexample :
    useThemeSetter initialStore "neon" =
      Except.ok
        ({ settings := { useWebSearch := JsValue.bool false, theme := JsValue.str "neon" },
           storage := some { useWebSearch := JsValue.bool false, theme := JsValue.str "neon" } },
         true) ∧
    THEMES.contains "neon" = false ∧
    JsValue.str "neon" ≠ JsValue.str THEMES_AUTO := by
  refine ⟨rfl, by decide, by decide⟩

/-- Claim C6 amended: an out-of-enum theme value is not rejected with an
error; the canonical useTheme setter stores it unchanged, while only the
historical variant setter coerces it to THEMES.AUTO before storing. -/
theorem theme_out_of_enum_stored_unchanged (store : SettingsStore) (v : String)
    (hv : THEMES.contains v = false) :
    (∃ s n, useThemeSetter store v = Except.ok (s, n) ∧
      s.settings.theme = JsValue.str v) ∧
    (∃ s n, useThemeSetterVariant store v = Except.ok (s, n) ∧
      s.settings.theme = JsValue.str THEMES_AUTO) := by
  constructor
  · by_cases hc : store.settings.getKey "theme" = JsValue.str v
    · refine ⟨store, false, ?_, ?_⟩
      · simp [useThemeSetter, updateSetting, ensureKeyExists, SETTING_KEYS, hc]
      · rw [← getKey_theme]
        exact hc
    · refine ⟨persistSet (store.settings.setKey "theme" (JsValue.str v)), true, ?_, ?_⟩
      · simp [useThemeSetter, updateSetting, ensureKeyExists, SETTING_KEYS, hc]
      · simp [persistSet, Settings.setKey]
  · have hv2 : ¬ v ∈ THEMES := by simpa using hv
    by_cases hc : store.settings.getKey "theme" = JsValue.str THEMES_AUTO
    · refine ⟨store, false, ?_, ?_⟩
      · simp [useThemeSetterVariant, updateSetting, ensureKeyExists, SETTING_KEYS, hv2, hc]
      · rw [← getKey_theme]
        exact hc
    · refine ⟨persistSet (store.settings.setKey "theme" (JsValue.str THEMES_AUTO)), true, ?_, ?_⟩
      · simp [useThemeSetterVariant, updateSetting, ensureKeyExists, SETTING_KEYS, hv2, hc]
      · simp [persistSet, Settings.setKey]

/-- Claim C6 amended witness: setting "neon" on the initial store stores
"neon" through the canonical setter and THEMES.AUTO through the variant
setter. -/
theorem theme_out_of_enum_stored_unchanged_witness :
    THEMES.contains "neon" = false ∧
    (∃ s n, useThemeSetter initialStore "neon" = Except.ok (s, n) ∧
      s.settings.theme = JsValue.str "neon") ∧
    (∃ s n, useThemeSetterVariant initialStore "neon" = Except.ok (s, n) ∧
      s.settings.theme = JsValue.str THEMES_AUTO) :=
  ⟨by decide,
   (theme_out_of_enum_stored_unchanged initialStore "neon" (by decide)).1,
   (theme_out_of_enum_stored_unchanged initialStore "neon" (by decide)).2⟩

/-- Claim C7: updating a recognized key to the value already stored is a
no-op and fires no subscriber notification; updating to a different
value stores it, persists it, and fires the notification. -/
theorem update_noop_suppression (store : SettingsStore) (key : String) (value : JsValue)
    (hkey : SETTING_KEYS.contains key = true) :
    (store.settings.getKey key = value →
      updateSetting store key value = Except.ok (store, false)) ∧
    (store.settings.getKey key ≠ value →
      updateSetting store key value =
        Except.ok (persistSet (store.settings.setKey key value), true) ∧
      (store.settings.setKey key value).getKey key = value) := by
  have hmem : key ∈ SETTING_KEYS := by simpa using hkey
  constructor
  · intro hv
    simp [updateSetting, ensureKeyExists, hmem, hv]
  · intro hv
    refine ⟨by simp [updateSetting, ensureKeyExists, hmem, hv], ?_⟩
    rcases key_recognized_cases key hkey with hk | hk <;> subst hk <;>
      simp [Settings.getKey, Settings.setKey]

/-- Claim C7 witness: on the initial store, writing useWebSearch=false
(the current value) returns the store unchanged with no notification,
while writing useWebSearch=true stores it and notifies. -/
theorem update_noop_suppression_witness :
    updateSetting initialStore "useWebSearch" (JsValue.bool false) =
      Except.ok (initialStore, false) ∧
    updateSetting initialStore "useWebSearch" (JsValue.bool true) =
      Except.ok (persistSet (initialStore.settings.setKey "useWebSearch" (JsValue.bool true)),
        true) :=
  ⟨(update_noop_suppression initialStore "useWebSearch" (JsValue.bool false)
      (by decide)).1 (by decide),
   ((update_noop_suppression initialStore "useWebSearch" (JsValue.bool true)
      (by decide)).2 (by decide)).1⟩

/-- Claim C8 counterexample: resetting a store whose snapshot holds
modified settings does not clear the durable snapshot; the snapshot
remains present, overwritten with the defaults. -/
theorem reset_storage_counterexample :
    (resetSettings
      (persistSet { useWebSearch := JsValue.bool true, theme := JsValue.str "dark" })).storage =
      some getDefaultSettings ∧
    (resetSettings
      (persistSet { useWebSearch := JsValue.bool true, theme := JsValue.str "dark" })).storage ≠
      none :=
  ⟨rfl, by decide⟩

/-- Claim C8 amended: resetSettings restores every recognized key to its
declared default and overwrites the durable snapshot with the defaults
instead of clearing it (only the historical variant clears it); reset is
idempotent and afterwards getSetting returns the default for every
recognized key. -/
theorem reset_restores_defaults (store : SettingsStore) (key : String)
    (hkey : SETTING_KEYS.contains key = true) :
    resetSettings store =
      { settings := getDefaultSettings, storage := some getDefaultSettings } ∧
    resetSettings (resetSettings store) = resetSettings store ∧
    getSetting (resetSettings store) key = Except.ok (getDefaultSettings.getKey key) ∧
    (resetSettingsVariant store).settings = getDefaultSettings ∧
    (resetSettingsVariant store).storage = none := by
  have hmem : key ∈ SETTING_KEYS := by simpa using hkey
  exact ⟨rfl, rfl, by simp [getSetting, ensureKeyExists, hmem, resetSettings, persistSet],
    rfl, rfl⟩

/-- Claim C8 amended witness: resetting the initial store yields the
defaults, an intact snapshot holding the defaults, and getSetting on
theme returns the default value. -/
theorem reset_restores_defaults_witness :
    resetSettings initialStore =
      { settings := getDefaultSettings, storage := some getDefaultSettings } ∧
    getSetting (resetSettings initialStore) "theme" =
      Except.ok (getDefaultSettings.getKey "theme") :=
  ⟨(reset_restores_defaults initialStore "theme" (by decide)).1,
   (reset_restores_defaults initialStore "theme" (by decide)).2.2.1⟩

/-- Claim C9 counterexample: the whitespace-only input " " has length
one, so Controls does not reject it: a history entry is appended and a
provider call starts. -/
theorem whitespace_input_accepted_counterexample :
    submit { messages := [], inFlight := 0 } " " =
      { messages := [Message.user " "], inFlight := 1 } := by
  rfl

/-- Claim C9 amended: only the empty input is rejected before Sending (no
history entry, no provider call); every input of length at least one,
whitespace-only included, is appended and dispatched. -/
theorem empty_input_rejected (s : AppState) (c : String) :
    (c.length = 0 → submit s c = s) ∧
    (1 ≤ c.length →
      submit s c =
        { messages := s.messages ++ [Message.user c], inFlight := s.inFlight + 1 }) := by
  constructor
  · intro h
    simp [submit, controlsSubmit, appControlsDisabled, h]
  · intro h
    have hlt : ¬ c.length < 1 := by omega
    simp [submit, controlsSubmit, appControlsDisabled, hlt]

/-- Claim C9 amended witness: the empty input is ignored while the
whitespace-only input of two spaces is appended and dispatched. -/
theorem empty_input_rejected_witness :
    submit { messages := [], inFlight := 0 } "" = { messages := [], inFlight := 0 } ∧
    submit { messages := [], inFlight := 0 } "  " =
      { messages := [Message.user "  "], inFlight := 1 } :=
  ⟨(empty_input_rejected { messages := [], inFlight := 0 } "").1 (by decide),
   by
     have h := (empty_input_rejected { messages := [], inFlight := 0 } "  ").2 (by decide)
     rw [h]
     rfl⟩

/-- Claim C10: when the lowercased content ends with the web-search
directive, the request body carries the web_search tool while the input
content is sent unmodified, the directive suffix still present, because
the result of the removal operation is discarded. -/
theorem directive_attaches_tool_content_unmodified (model : String) (msg : Message)
    (h : jsEndsWith (jsToLowerCase msg.content) USE_WEB_SEARCH_TOOL_DIRECTIVE = true) :
    (sendMessageRequest model msg).tools = ["web_search"] ∧
    (sendMessageRequest model msg).inputContent = msg.content ∧
    jsEndsWith (jsToLowerCase (sendMessageRequest model msg).inputContent)
      USE_WEB_SEARCH_TOOL_DIRECTIVE = true := by
  refine ⟨?_, ?_, ?_⟩ <;> simp [sendMessageRequest, h]

/-- Claim C10 witness: a message ending in a case-variant of the
directive gets the web_search tool and is sent with its content, the
directive included, unmodified. -/
theorem directive_attaches_tool_content_unmodified_witness :
    (sendMessageRequest "gpt-4o-mini" (Message.user "News [Use-Tool-Web-Search]")).tools =
      ["web_search"] ∧
    (sendMessageRequest "gpt-4o-mini" (Message.user "News [Use-Tool-Web-Search]")).inputContent =
      "News [Use-Tool-Web-Search]" := by
  have h : jsEndsWith (jsToLowerCase (Message.user "News [Use-Tool-Web-Search]").content)
      USE_WEB_SEARCH_TOOL_DIRECTIVE = true := by decide
  have hthm := directive_attaches_tool_content_unmodified "gpt-4o-mini"
    (Message.user "News [Use-Tool-Web-Search]") h
  exact ⟨hthm.1, hthm.2.1⟩

end Chatbot
